import Mathlib

/-!
Verification of the `react-native-image-viewing` component (the `ImageViewing`
forward-ref component and its exported `EnhancedImageViewing` wrapper).

The embedding below translates the component's render function, its
imperative handle (`scrollNext` / `scrollPrev`), the `onZoom` and
`onImageIndexChange` effects, and the header/footer animation selection
directly from the source.  The three hooks the component calls
(`useImageIndexChange`, `useRequestClose`, `useAnimatedComponents`) live in
files of the repository that are not available here; where a claim depends on
their behaviour, the corresponding definition is modelled from the
specification and says so in its doc comment.

Indices are JS numbers holding integers, so they are embedded as `Int`.
Callback invocation is embedded as data: a handler returns the list or
option of calls it makes, so that "nothing is invoked" is `none` / `[]`.
-/

namespace ImageViewing

/-- Embedding of the `ImageSource` type (`src/@types/index.ts`): only the
fields relevant to the verified claims are kept. -/
structure ImageSource where
  uri : String
  deriving Repr, DecidableEq

/-- The `presentationStyle` values of the host `Modal` component. -/
inductive PresentationStyle where
  | fullScreen
  | pageSheet
  | formSheet
  | overFullScreen
  deriving Repr, DecidableEq

/-- The `animationType` values of the host `Modal` component. -/
inductive ModalAnimationType where
  | noAnimation
  | slide
  | fade
  deriving Repr, DecidableEq

/-- The `headerAndFooterAnimation` prop values (`"slide" | "fade"`). -/
inductive HeaderFooterAnimation where
  | slide
  | fade
  deriving Repr, DecidableEq

/-- Embedding of the `Props` type of `ImageViewing` (the fields the verified
claims mention; optional props are `Option`, `none` meaning "not passed"). -/
structure Props where
  images : List ImageSource
  imageIndex : Int
  visible : Bool
  presentationStyle : Option PresentationStyle
  animationType : Option ModalAnimationType
  headerAndFooterAnimation : Option HeaderFooterAnimation
  deriving Repr, DecidableEq

/-- Constant `DEFAULT_ANIMATION_TYPE = "fade"` from the source. -/
def DEFAULT_ANIMATION_TYPE : ModalAnimationType := .fade

/-- Constant `DEFAULT_HEADER_FOOTER_ANIMATION = "slide"` from the source. -/
def DEFAULT_HEADER_FOOTER_ANIMATION : HeaderFooterAnimation := .slide

/-- Default application of the `headerAndFooterAnimation` prop: the
destructuring default `headerAndFooterAnimation = DEFAULT_HEADER_FOOTER_ANIMATION`. -/
def resolveHeaderFooterAnimation (p : Option HeaderFooterAnimation) :
    HeaderFooterAnimation :=
  p.getD DEFAULT_HEADER_FOOTER_ANIMATION

/-- Argument record of `VirtualizedList.scrollToIndex`. -/
structure ScrollToIndexParams where
  index : Int
  animated : Bool
  deriving Repr, DecidableEq

/-- Embedding of the `scrollNext` member of the imperative handle
(`useImperativeHandle`, lines 98-105).  `imageListCurrent` is
`imageList.current`; `none` is the null ref.  The returned value is the
`scrollToIndex` call the command issues, `none` when the guard
`if(!imageList.current) return;` fires. -/
def scrollNext (imageListCurrent : Option Unit) (currentImageIndex : Int) :
    Option ScrollToIndexParams :=
  match imageListCurrent with
  | none => none
  | some _ => some { index := currentImageIndex + 1, animated := true }

/-- Embedding of the `scrollPrev` member of the imperative handle
(`useImperativeHandle`, lines 106-112). -/
def scrollPrev (imageListCurrent : Option Unit) (currentImageIndex : Int) :
    Option ScrollToIndexParams :=
  match imageListCurrent with
  | none => none
  | some _ => some { index := currentImageIndex - 1, animated := true }

/-- The props of the `Modal` element built by the render function (the
scalar props the claims mention). -/
structure ModalNode where
  transparent : Bool
  visible : Bool
  presentationStyle : Option PresentationStyle
  animationType : ModalAnimationType
  hardwareAccelerated : Bool
  deriving Repr, DecidableEq

/-- Embedding of the render path of `ImageViewing` relevant to visibility:
`if (!visible) { return null; }` followed by `return <Modal transparent={...}
visible={visible} ... />`.  `none` is the `null` render. -/
def renderImageViewing (p : Props) : Option ModalNode :=
  if !p.visible then
    none
  else
    some {
      transparent := p.presentationStyle = some .overFullScreen
      visible := p.visible
      presentationStyle := p.presentationStyle
      animationType := p.animationType.getD DEFAULT_ANIMATION_TYPE
      hardwareAccelerated := true }

/-- The animated values the `useAnimatedComponents` hook hands back; the
render code only routes them, so they are embedded as opaque-free tokens. -/
inductive AnimatedValue where
  | headerTransform
  | footerTransform
  | barsOpacity
  deriving Repr, DecidableEq

/-- An animated style object: either `{ transform: ... }` or
`{ opacity: ... }`. -/
inductive AnimStyle where
  | transformStyle (v : AnimatedValue)
  | opacityStyle (v : AnimatedValue)
  deriving Repr, DecidableEq

/-- Whether an animated style is the transform (slide) form. -/
def AnimStyle.isTransform : AnimStyle → Bool
  | .transformStyle _ => true
  | .opacityStyle _ => false

/-- Embedding of the `headerAnimation` memo (lines 115-122): slide selects
`{ transform: headerTransform }`, otherwise `{ opacity: barsOpacity }`. -/
def headerAnimation (a : HeaderFooterAnimation) : AnimStyle :=
  if a = .slide then .transformStyle .headerTransform
  else .opacityStyle .barsOpacity

/-- Embedding of the `footerAnimation` memo (lines 124-131). -/
def footerAnimation (a : HeaderFooterAnimation) : AnimStyle :=
  if a = .slide then .transformStyle .footerTransform
  else .opacityStyle .barsOpacity

/-- Embedding of the `useEffect` body at lines 134-138: when the
`onImageIndexChange` callback is provided it is invoked with the current
image index, otherwise nothing is invoked.  The result is the call made,
as data: `none` means no invocation. -/
def imageIndexChangeEffect {α : Type} (onImageIndexChange : Option (Int → α))
    (currentImageIndex : Int) : Option α :=
  match onImageIndexChange with
  | none => none
  | some f => some (f currentImageIndex)

/-- Host-framework semantics of a `useEffect` with dependency list
`[currentImageIndex]`: the effect runs after mount (`prevDeps = none`) and
after any render where the dependency changed. -/
def effectFires (prevDeps : Option Int) (currentImageIndex : Int) : Bool :=
  match prevDeps with
  | none => true
  | some prev => prev ≠ currentImageIndex

/-- The native props of the list that `onZoom` touches. -/
structure ListNativeProps where
  scrollEnabled : Bool
  deriving Repr, DecidableEq

/-- Embedding of the `onZoom` callback (lines 140-147):
`imageList?.current?.setNativeProps({ scrollEnabled: !isScaled })` followed
by `setBarsVisibility(!isScaled)`.  The first component is the list's native
props after the optional-chained update (unchanged shape when the ref is
null, in which case no update happens); the second is the argument passed to
`setBarsVisibility`. -/
def onZoom (imageListCurrent : Option ListNativeProps) (isScaled : Bool) :
    Option ListNativeProps × Bool :=
  (imageListCurrent.map fun l => { l with scrollEnabled := !isScaled }, !isScaled)

/-- Modelled from the spec: the `useImageIndexChange` hook (file
`src/hooks/useImageIndexChange`, not present in the sources) keeps the
current visible index "bounded to [0, imageCount)": the scroll-settle
handler (`onMomentumScrollEnd` → `onScroll`) derives the page the scroll
settled at and clamps it into that range. -/
def settleIndex (imageCount : Int) (settledPage : Int) : Int :=
  max 0 (min settledPage (imageCount - 1))

/-- The component state the verified claims track: the current visible
image index (`currentImageIndex`). -/
structure ViewerState where
  currentImageIndex : Int
  deriving Repr, DecidableEq

/-- The operations that touch the current index: a scroll settling on a
page (`onMomentumScrollEnd`), and the imperative `scrollNext` / `scrollPrev`
commands (whose list ref may be null). -/
inductive Op where
  | settle (page : Int)
  | scrollNextCmd (refPresent : Bool)
  | scrollPrevCmd (refPresent : Bool)
  deriving Repr, DecidableEq

/-- One step of the component: the new state together with the
`scrollToIndex` request the operation issued (if any).  A scroll command
only requests a scroll; the index itself is updated by the settle handler
(`settleIndex`, modelled from the spec). -/
def step (imageCount : Int) (s : ViewerState) :
    Op → ViewerState × Option ScrollToIndexParams
  | .settle page => ({ currentImageIndex := settleIndex imageCount page }, none)
  | .scrollNextCmd refPresent =>
      (s, scrollNext (if refPresent then some () else none) s.currentImageIndex)
  | .scrollPrevCmd refPresent =>
      (s, scrollPrev (if refPresent then some () else none) s.currentImageIndex)

/-- Events of the close path. -/
inductive CloseEvent where
  | fadeStart
  | fadeComplete
  | closeInvoked
  deriving Repr, DecidableEq

/-- Modelled from the spec: the `useRequestClose` hook (file
`src/hooks/useRequestClose`, not present in the sources) wraps
`onRequestClose` into the enhanced handler `onRequestCloseEnhanced`, which
defers the close action until the opacity fade animation completes.  The
value is the ordered event trace one invocation of the enhanced handler
produces. -/
def onRequestCloseEnhancedTrace : List CloseEvent :=
  [.fadeStart, .fadeComplete, .closeInvoked]

/-- Scanning check that in a trace every `closeInvoked` event comes after a
`fadeComplete` event.  The accumulator records whether the fade has
completed so far. -/
def closeAfterFadeFrom (fadeDone : Bool) : List CloseEvent → Bool
  | [] => true
  | e :: rest =>
    match e with
    | .fadeComplete => closeAfterFadeFrom true rest
    | .closeInvoked => fadeDone && closeAfterFadeFrom fadeDone rest
    | .fadeStart => closeAfterFadeFrom fadeDone rest

/-- Check over a whole trace: no close action before the fade completes. -/
def closeAfterFade (trace : List CloseEvent) : Bool :=
  closeAfterFadeFrom false trace

/-- The internal state the mounted viewer instance owns: the current index
(initialised from the `imageIndex` prop, visible in the call
`useImageIndexChange(imageIndex, SCREEN)`), and — modelled from the spec,
their hooks being absent from the sources — the close-fade opacity scalar
in [0,1] (initially fully opaque) and the "bars visible" flag (initially
true). -/
structure InternalState where
  currentImageIndex : Int
  opacity : ℚ
  barsVisible : Bool
  deriving Repr, DecidableEq

/-- The initial internal state a freshly mounted `ImageViewing` instance
derives from its props. -/
def initState (p : Props) : InternalState :=
  { currentImageIndex := p.imageIndex, opacity := 1, barsVisible := true }

/-- Embedding of `EnhancedImageViewing` (lines 256-258): the inner viewer
element carries `key={props.imageIndex}`. -/
def elementKey (p : Props) : Int :=
  p.imageIndex

/-- Host-framework reconciliation for a keyed element: when the new
element's key differs from the mounted instance's key, the instance
unmounts and a fresh one mounts with state initialised from the new props;
otherwise the instance keeps its state. -/
def reconcile (oldKey : Int) (oldState : InternalState) (newProps : Props) :
    InternalState :=
  if elementKey newProps ≠ oldKey then initState newProps else oldState

/-- C1: for every state of the component, the current visible image index is
an integer in the range [0, images.length): every operation that changes it,
including the imperative scrollNext and scrollPrev commands and
scroll-settle updates, keeps it within these bounds (index clamping). -/
theorem currentIndexBounded (imageCount : Int) (s : ViewerState) (op : Op)
    (hlo : 0 ≤ s.currentImageIndex) (hhi : s.currentImageIndex < imageCount) :
    0 ≤ (step imageCount s op).1.currentImageIndex ∧
      (step imageCount s op).1.currentImageIndex < imageCount := by
  cases op with
  | settle page =>
    simp only [step, settleIndex]
    omega
  | scrollNextCmd refPresent => exact ⟨hlo, hhi⟩
  | scrollPrevCmd refPresent => exact ⟨hlo, hhi⟩

/-- Witness for C1 at a concrete state and operation. -/
theorem currentIndexBounded_witness :
    0 ≤ (step 3 ⟨0⟩ (.settle 7)).1.currentImageIndex ∧
      (step 3 ⟨0⟩ (.settle 7)).1.currentImageIndex < 3 :=
  currentIndexBounded 3 ⟨0⟩ (.settle 7) (by decide) (by decide)

/-- C2: the imperative handle exposes exactly two scroll commands, next and
previous: for every current index i, invoking scrollNext requests a scroll
to index i + 1 and invoking scrollPrev requests a scroll to index i - 1. -/
theorem scrollCommandsRequestAdjacentIndex (r : Unit) (i : Int) :
    scrollNext (some r) i = some { index := i + 1, animated := true } ∧
      scrollPrev (some r) i = some { index := i - 1, animated := true } :=
  ⟨rfl, rfl⟩

/-- C3: a swipe right (a horizontal scroll settling one page further)
advances the current index by exactly 1, and when the index is already the
last image index the index stays at the last image (clamped). -/
theorem swipeRightAdvancesClamped (imageCount i : Int)
    (hlo : 0 ≤ i) (hhi : i < imageCount) :
    (step imageCount ⟨i⟩ (.settle (i + 1))).1.currentImageIndex
        = min (i + 1) (imageCount - 1) ∧
      (i < imageCount - 1 →
        (step imageCount ⟨i⟩ (.settle (i + 1))).1.currentImageIndex = i + 1) ∧
      (i = imageCount - 1 →
        (step imageCount ⟨i⟩ (.settle (i + 1))).1.currentImageIndex
          = imageCount - 1) := by
  simp only [step, settleIndex]
  omega

/-- Witness for C3 at a concrete index, both below and at the last image. -/
theorem swipeRightAdvancesClamped_witness :
    ((step 3 ⟨0⟩ (.settle 1)).1.currentImageIndex = min 1 2 ∧
      (0 < (2 : Int) → (step 3 ⟨0⟩ (.settle 1)).1.currentImageIndex = 1) ∧
      ((0 : Int) = 2 → (step 3 ⟨0⟩ (.settle 1)).1.currentImageIndex = 2)) ∧
    ((step 3 ⟨2⟩ (.settle 3)).1.currentImageIndex = min 3 2 ∧
      (2 < (2 : Int) → (step 3 ⟨2⟩ (.settle 3)).1.currentImageIndex = 3) ∧
      ((2 : Int) = 2 → (step 3 ⟨2⟩ (.settle 3)).1.currentImageIndex = 2)) :=
  ⟨swipeRightAdvancesClamped 3 0 (by decide) (by decide),
    swipeRightAdvancesClamped 3 2 (by decide) (by decide)⟩

/-- C4: if the visible flag is false the component renders nothing (returns
null), and if the visible flag is true it renders a modal container whose
visible prop is true. -/
theorem modalMountsWithVisibility (p : Props) :
    (p.visible = false → renderImageViewing p = none) ∧
      (p.visible = true →
        ∃ m, renderImageViewing p = some m ∧ m.visible = true) := by
  constructor
  · intro h
    simp [renderImageViewing, h]
  · intro h
    refine ⟨{ transparent := p.presentationStyle = some .overFullScreen,
              visible := p.visible,
              presentationStyle := p.presentationStyle,
              animationType := p.animationType.getD DEFAULT_ANIMATION_TYPE,
              hardwareAccelerated := true }, ?_, h⟩
    simp [renderImageViewing, h]

/-- Witness for C4 at a concrete hidden and a concrete shown prop record. -/
theorem modalMountsWithVisibility_witness :
    (renderImageViewing
        { images := [], imageIndex := 0, visible := false,
          presentationStyle := none, animationType := none,
          headerAndFooterAnimation := none } = none) ∧
      (∃ m, renderImageViewing
          { images := [{ uri := "a" }], imageIndex := 0, visible := true,
            presentationStyle := none, animationType := none,
            headerAndFooterAnimation := none } = some m ∧ m.visible = true) :=
  ⟨(modalMountsWithVisibility _).1 rfl, (modalMountsWithVisibility _).2 rfl⟩

/-- C5: whenever the current image index value changes (including on mount),
the onImageIndexChange callback, when provided, is invoked with the new
current index; when the callback is not provided, nothing is invoked. -/
theorem imageIndexRoundTrip {α : Type} (f : Int → α)
    (prevDeps : Option Int) (i : Int) (hchange : prevDeps ≠ some i) :
    effectFires none i = true ∧
      effectFires prevDeps i = true ∧
      imageIndexChangeEffect (some f) i = some (f i) ∧
      imageIndexChangeEffect (none : Option (Int → α)) i = none := by
  refine ⟨rfl, ?_, rfl, rfl⟩
  cases prevDeps with
  | none => rfl
  | some prev =>
    simp only [effectFires, ne_eq, decide_not, Bool.not_eq_true', decide_eq_false_iff_not]
    intro hpi
    exact hchange (by rw [hpi])

/-- Witness for C5 at a concrete callback and index change. -/
theorem imageIndexRoundTrip_witness :
    effectFires none 3 = true ∧
      effectFires (some 2) 3 = true ∧
      imageIndexChangeEffect (some fun n => n + 10) 3 = some 13 ∧
      imageIndexChangeEffect (none : Option (Int → Int)) 3 = none :=
  imageIndexRoundTrip (fun n => n + 10) (some 2) 3 (by decide)

/-- C6: both imperative scroll commands perform a defensive null check: for
every invocation of scrollNext or scrollPrev while the underlying list ref
is null, the command returns without invoking any scroll, and no error is
raised (the handlers are total and issue no request). -/
theorem nullRefGuardReturns (i : Int) :
    scrollNext none i = none ∧ scrollPrev none i = none :=
  ⟨rfl, rfl⟩

/-- C7: the header and footer overlay animation is selected by the
headerAndFooterAnimation prop: when it equals slide (the default) the
header and footer styles carry a transform, and otherwise (fade) they
carry an opacity value; the selection is the same for header and footer. -/
theorem headerFooterAnimationSelected (p : Option HeaderFooterAnimation) :
    resolveHeaderFooterAnimation none = .slide ∧
      headerAnimation .slide = .transformStyle .headerTransform ∧
      footerAnimation .slide = .transformStyle .footerTransform ∧
      headerAnimation .fade = .opacityStyle .barsOpacity ∧
      footerAnimation .fade = .opacityStyle .barsOpacity ∧
      (headerAnimation (resolveHeaderFooterAnimation p)).isTransform
        = (footerAnimation (resolveHeaderFooterAnimation p)).isTransform := by
  refine ⟨rfl, rfl, rfl, rfl, rfl, ?_⟩
  cases resolveHeaderFooterAnimation p <;> rfl

/-- C8: a close request never invokes the onRequestClose callback before
the fade animation completes: in the enhanced close handler's event trace,
every close invocation is preceded by the completion of the opacity fade. -/
theorem closeDeferredUntilFadeComplete :
    closeAfterFade onRequestCloseEnhancedTrace = true ∧
      ∀ j : Fin onRequestCloseEnhancedTrace.length,
        onRequestCloseEnhancedTrace.get j = .closeInvoked →
          ∃ k : Fin onRequestCloseEnhancedTrace.length,
            (k : ℕ) < (j : ℕ) ∧
              onRequestCloseEnhancedTrace.get k = .fadeComplete := by
  decide

/-- Witness for C8 at the concrete close event of the trace. -/
theorem closeDeferredUntilFadeComplete_witness :
    ∃ k : Fin onRequestCloseEnhancedTrace.length,
      (k : ℕ) < 2 ∧ onRequestCloseEnhancedTrace.get k = .fadeComplete :=
  closeDeferredUntilFadeComplete.2 ⟨2, by decide⟩ (by decide)

/-- C9: the exported component keys the inner viewer by the imageIndex
prop, so for every change of the imageIndex prop the viewer remounts,
resetting all internal state (current index, close fade opacity, bar
visibility) to its initial values derived from the new props. -/
theorem imageIndexKeyRemounts (oldProps : Props) (oldState : InternalState)
    (newProps : Props) (h : newProps.imageIndex ≠ oldProps.imageIndex) :
    reconcile (elementKey oldProps) oldState newProps = initState newProps ∧
      (reconcile (elementKey oldProps) oldState newProps).currentImageIndex
          = newProps.imageIndex ∧
      (reconcile (elementKey oldProps) oldState newProps).opacity = 1 ∧
      (reconcile (elementKey oldProps) oldState newProps).barsVisible = true := by
  have hkey : reconcile (elementKey oldProps) oldState newProps
      = initState newProps := if_pos h
  exact ⟨hkey, by rw [hkey]; rfl, by rw [hkey]; rfl, by rw [hkey]; rfl⟩

/-- Witness for C9 at concrete old and new props differing in imageIndex. -/
theorem imageIndexKeyRemounts_witness :
    reconcile
        (elementKey
          { images := [], imageIndex := 0, visible := true,
            presentationStyle := none, animationType := none,
            headerAndFooterAnimation := none })
        { currentImageIndex := 4, opacity := 0, barsVisible := false }
        { images := [], imageIndex := 1, visible := true,
          presentationStyle := none, animationType := none,
          headerAndFooterAnimation := none }
      = initState
          { images := [], imageIndex := 1, visible := true,
            presentationStyle := none, animationType := none,
            headerAndFooterAnimation := none } ∧
      (reconcile
          (elementKey
            { images := [], imageIndex := 0, visible := true,
              presentationStyle := none, animationType := none,
              headerAndFooterAnimation := none })
          { currentImageIndex := 4, opacity := 0, barsVisible := false }
          { images := [], imageIndex := 1, visible := true,
            presentationStyle := none, animationType := none,
            headerAndFooterAnimation := none }).currentImageIndex = 1 ∧
      (reconcile
          (elementKey
            { images := [], imageIndex := 0, visible := true,
              presentationStyle := none, animationType := none,
              headerAndFooterAnimation := none })
          { currentImageIndex := 4, opacity := 0, barsVisible := false }
          { images := [], imageIndex := 1, visible := true,
            presentationStyle := none, animationType := none,
            headerAndFooterAnimation := none }).opacity = 1 ∧
      (reconcile
          (elementKey
            { images := [], imageIndex := 0, visible := true,
              presentationStyle := none, animationType := none,
              headerAndFooterAnimation := none })
          { currentImageIndex := 4, opacity := 0, barsVisible := false }
          { images := [], imageIndex := 1, visible := true,
            presentationStyle := none, animationType := none,
            headerAndFooterAnimation := none }).barsVisible = true :=
  imageIndexKeyRemounts _ _ _ (by decide)

/-- C10: for every zoom state change reported by an image item (the list
ref being attached), becoming scaled disables the list's scrolling and
hides the bars, becoming unscaled re-enables scrolling and shows the bars;
scrollEnabled always equals the negation of the scaled flag, as does the
bar visibility passed to setBarsVisibility. -/
theorem zoomTogglesScrollAndBars (l : ListNativeProps) (isScaled : Bool) :
    (onZoom (some l) isScaled).1 = some { scrollEnabled := !isScaled } ∧
      (onZoom (some l) isScaled).2 = !isScaled :=
  ⟨rfl, rfl⟩

end ImageViewing
